import Mathlib

/-!
# Verification of the Consul service-registry coordinator

Shallow embedding of `src/src/common/consul.py` (`ConsulClient`). The
backend (Consul) is modelled by explicit oracles describing the outcome of
every backend call (success, returned data, or a raised exception), the KV
namespace is an association list from paths to records, and each operation
returns its boolean result, the updated local registry state, the updated
KV store, and the trace of backend calls it issued.
-/

namespace ConsulSpec

/-- `KVServiceMeta` (consul.py lines 15-22): the JSON value stored at the KV
path. `ServerData` is an opaque JSON blob (a `dict` in the source), modelled
as an uninterpreted string. -/
structure KVServiceMeta where
  ServerName : String
  ServerDesc : String
  ServerData : String
  created_at : Nat
  updated_at : Nat
deriving Repr, DecidableEq

/-- The KV namespace: an association list from paths to records. -/
def KVStore := List (String × KVServiceMeta)
deriving Repr, DecidableEq

instance : Membership (String × KVServiceMeta) KVStore := inferInstanceAs (Membership _ (List _))

/-- `kv.get(path)` against the store (the data part of the `(index, data)` pair). -/
def KVStore.get (store : KVStore) (p : String) : Option KVServiceMeta :=
  List.lookup p store

/-- `kv.put(path, value)`: Consul's put overwrites any existing record. -/
def KVStore.put (store : KVStore) (p : String) (v : KVServiceMeta) : KVStore :=
  (p, v) :: (List.filter (fun e => !(e.1 == p)) store)

/-- `kv.delete(path)`: removes the record at `p`. -/
def KVStore.del (store : KVStore) (p : String) : KVStore :=
  List.filter (fun e => !(e.1 == p)) store

/-- The mutable fields of `ConsulClient` (consul.py lines 54-58): the local
`RegistryState` of the spec, plus the normalised KV base path. -/
structure RegState where
  kvBasePath : String
  service_id : Option String
  service_name : Option String
  kv_path : Option String
  registered : Bool
deriving Repr, DecidableEq

/-- Python truthiness of an `Optional[str]` attribute: `None` and `""` are
falsy (the source guards with `if self.service_name:` and similar). -/
def truthy : Option String → Bool
  | none => false
  | some s => !(s == "")

/-- `str.rstrip("/")`: drop every trailing `'/'`. -/
def rstripSlashes (s : String) : String :=
  String.mk (List.reverse (List.dropWhile (fun c => c == '/') s.data.reverse))

/-- `endsWith "/"` as used in the identifier-formula theorem. -/
def endsWithSlash (s : String) : Bool :=
  match s.data.reverse with
  | [] => false
  | c :: _ => c == '/'

/-- `ConsulClient.__init__` (lines 30-58): stores
`kv_base_path.rstrip("/") + "/"` and clears the registry state. -/
def initClient (kv_base_path : String) : RegState :=
  { kvBasePath := rstripSlashes kv_base_path ++ "/"
    service_id := none
    service_name := none
    kv_path := none
    registered := false }

/-- `_reset_state` (lines 342-347). -/
def resetState (s : RegState) : RegState :=
  { s with registered := false, service_id := none, service_name := none, kv_path := none }

/-- `service_id = f"{service_name}-{hostname}-{pid}-{port}-{timestamp}"`
(line 96). -/
def serviceIdOf (name host : String) (pid port ts : Nat) : String :=
  name ++ "-" ++ host ++ "-" ++ toString pid ++ "-" ++ toString port ++ "-" ++ toString ts

/-- Outcome of a backend call that returns a boolean: it can raise, return
`False`, or return `True`. -/
inductive OpRes
  | raises
  | retFalse
  | retTrue
deriving Repr, DecidableEq

/-- One backend event of a run. `kvGetEv i none` is a get that raised;
`kvGetEv i (some d)` returned data `d`. `healthQuery failed count` records
one `health.service(..., passing=True)` call and the instance count the
client computed from it. -/
inductive Ev
  | kvGetEv (attempt : Nat) (res : Option (Option KVServiceMeta))
  | kvPutEv (res : Option Bool)
  | catalogRegister (sid : String)
  | catalogDeregEv (attempt : Nat) (ok : Bool)
  | kvDeleteEv (attempt : Nat) (res : Option Bool)
  | healthQuery (failed : Bool) (count : Nat)
  | sleepEv (secs : Nat)
deriving Repr, DecidableEq

/-- Backend behaviour during one `register_service` call, plus the ambient
host/pid/clock values the source reads. -/
structure RegOracle where
  /-- the `kv.get` in `_check_kv_exists` raises -/
  kvGetFails : Bool
  /-- outcome of the `kv.put` in `_register_kv` -/
  kvPutRes : OpRes
  /-- `agent.service.register` raises -/
  catalogRegisterFails : Bool
  hostname : String
  pid : Nat
  /-- `int(time.time())` at line 95 (service id) -/
  now : Nat
  /-- `int(time.time())` taken by the `KVServiceMeta` default factories -/
  kvNow : Nat

/-- Result of a `register_service` / `deregister_service` call. -/
structure CallResult where
  ok : Bool
  state : RegState
  store : KVStore
  trace : List Ev
deriving Repr, DecidableEq

/-- `register_service` (lines 60-137).

* already registered ⇒ immediate `True`, no backend call (lines 76-78);
* `service_name` and `kv_path` are assigned before the `try` (lines 80-81);
* `_check_kv_exists` (lines 298-311) catches a raised get and reports
  `False` ("absent");
* if "absent", `_register_kv` (lines 313-340) builds the record with
  `created_at = updated_at = now` and puts it; its boolean result is
  ignored by the caller and a raised put is caught inside it;
* the service id is built, then `agent.service.register` is issued; if it
  raises, the `except` at line 135 returns `False` with `registered` still
  `False`; otherwise `registered` is set and `True` is returned. -/
def register_service (s : RegState) (store : KVStore) (o : RegOracle)
    (name _addr : String) (port : Nat) (desc sdata : String) : CallResult :=
  if s.registered then ⟨true, s, store, []⟩
  else
    let p := s.kvBasePath ++ name
    let s1 := { s with service_name := some name, kv_path := some p }
    let getRes : Option (Option KVServiceMeta) :=
      if o.kvGetFails then none else some (store.get p)
    let kvExists : Bool := match getRes with
      | some (some _) => true
      | _ => false
    let meta : KVServiceMeta :=
      ⟨name, desc, sdata, o.kvNow, o.kvNow⟩
    let afterPut : KVStore × List Ev :=
      if kvExists then (store, [])
      else
        match o.kvPutRes with
        | .raises => (store, [Ev.kvPutEv none])
        | .retFalse => (store, [Ev.kvPutEv (some false)])
        | .retTrue => (store.put p meta, [Ev.kvPutEv (some true)])
    let sid := serviceIdOf name o.hostname o.pid port o.now
    let s2 := { s1 with service_id := some sid }
    if o.catalogRegisterFails then
      ⟨false, s2, afterPut.1, Ev.kvGetEv 0 getRes :: afterPut.2⟩
    else
      ⟨true, { s2 with registered := true }, afterPut.1,
        Ev.kvGetEv 0 getRes :: afterPut.2 ++ [Ev.catalogRegister sid]⟩

/-- Backend behaviour during one `deregister_service` call. Every retry
attempt gets its own outcome; the health endpoint's behaviour is constant
for the duration of the call (the call issues at most two queries
back-to-back). `passing` is the ground-truth list of service ids of the
instances of `service_name` currently passing their health check. -/
structure DeregOracle where
  /-- `agent.service.deregister` on attempt `i` succeeds (else it raises) -/
  catalogDereg : Nat → Bool
  /-- `health.service(..., passing=True)` raises -/
  healthFails : Bool
  /-- service ids returned by a successful health query -/
  passing : List String
  /-- the `kv.get` of delete-loop attempt `i` raises -/
  kvGetFails : Nat → Bool
  /-- outcome of the `kv.delete` of delete-loop attempt `i` -/
  kvDeleteRes : Nat → OpRes

/-- The `other_count` computation of `_get_active_instance_count`
(lines 238-248): every returned node whose `Service.ID` differs from
`self.service_id` counts (an empty list yields 0 either way). -/
def countOthers (sid : Option String) (nodes : List String) : Nat :=
  (List.filter (fun n => !(some n == sid)) nodes).length

/-- `_get_active_instance_count` (lines 224-252). The `except` clause at
line 250 catches a raised health query and returns **0**. -/
def getActiveInstanceCount (o : DeregOracle) (sid : Option String) : Nat :=
  if o.healthFails then 0 else countOthers sid o.passing

/-- The retry loop of `_deregister_service_with_retry` (lines 184-207),
entered at attempt `i` with `fuel` attempts remaining: sleep `i` seconds
when `i > 0`, issue the deregister call, return `True` on success, catch a
raised call and move to the next attempt, `False` once attempts run out. -/
def deregRetryLoop (o : DeregOracle) (i fuel : Nat) : Bool × List Ev :=
  match fuel with
  | 0 => (false, [])
  | fuel' + 1 =>
    let sl : List Ev := if 0 < i then [Ev.sleepEv i] else []
    if o.catalogDereg i then
      (true, sl ++ [Ev.catalogDeregEv i true])
    else
      let rest := deregRetryLoop o (i + 1) fuel'
      (rest.1, sl ++ Ev.catalogDeregEv i false :: rest.2)

/-- `_deregister_service_with_retry` (lines 184-207): `max_retries = 3`,
attempts numbered 0, 1, 2. -/
def deregRetry (o : DeregOracle) : Bool × List Ev :=
  deregRetryLoop o 0 3

/-- The retry loop of `_delete_kv_if_last_instance` (lines 263-294),
entered at attempt `i` with `fuel` attempts remaining. Each attempt:
sleep `i` seconds when `i > 0`; re-`get` the path (a raised get is caught
and the attempt retried); if the record is gone, return; otherwise issue
the delete — a raised or `False` delete is retried, a `True` delete ends
the loop. -/
def deleteKvLoop (o : DeregOracle) (p : String) (store : KVStore) (i fuel : Nat) :
    KVStore × List Ev :=
  match fuel with
  | 0 => (store, [])
  | fuel' + 1 =>
    let sl : List Ev := if 0 < i then [Ev.sleepEv i] else []
    if o.kvGetFails i then
      let rest := deleteKvLoop o p store (i + 1) fuel'
      (rest.1, sl ++ Ev.kvGetEv i none :: rest.2)
    else
      match store.get p with
      | none => (store, sl ++ [Ev.kvGetEv i (some none)])
      | some v =>
        match o.kvDeleteRes i with
        | .raises =>
          let rest := deleteKvLoop o p store (i + 1) fuel'
          (rest.1, sl ++ Ev.kvGetEv i (some (some v)) :: Ev.kvDeleteEv i none :: rest.2)
        | .retFalse =>
          let rest := deleteKvLoop o p store (i + 1) fuel'
          (rest.1, sl ++ Ev.kvGetEv i (some (some v)) :: Ev.kvDeleteEv i (some false) :: rest.2)
        | .retTrue =>
          (store.del p, sl ++ [Ev.kvGetEv i (some (some v)), Ev.kvDeleteEv i (some true)])

/-- `_delete_kv_if_last_instance` (lines 254-296): no-op when `kv_path` is
falsy (`None` or `""`), otherwise the 3-attempt delete loop. -/
def deleteKvIfLastInstance (o : DeregOracle) (s : RegState) (store : KVStore) :
    KVStore × List Ev :=
  match s.kv_path with
  | none => (store, [])
  | some p => if p == "" then (store, []) else deleteKvLoop o p store 0 3

/-- `deregister_service` (lines 139-182).

* step 1 (lines 152-157): the catalog entry is deregistered with retry only
  when `self.registered and self.service_id` is truthy; the boolean result
  is kept as the caller-visible outcome;
* step 2 (lines 160-171): when `service_name` is truthy, the other-instance
  count is queried (`_has_other_instances`, whose own `except` at line 219
  is unreachable because `_get_active_instance_count` catches every
  exception itself); if zero, the KV cleanup runs, otherwise the count is
  queried a second time purely for the log line;
* step 3 (line 174): the state is reset and the step-1 result returned.
  The `except` at line 179 is unreachable here because every helper catches
  its own exceptions. -/
def deregister_service (o : DeregOracle) (s : RegState) (store : KVStore) : CallResult :=
  let step1 : Bool × List Ev :=
    if s.registered && truthy s.service_id then deregRetry o else (true, [])
  if truthy s.service_name then
    let c := getActiveInstanceCount o s.service_id
    if 0 < c then
      ⟨step1.1, resetState s, store,
        step1.2 ++ [Ev.healthQuery o.healthFails c,
          Ev.healthQuery o.healthFails (getActiveInstanceCount o s.service_id)]⟩
    else
      let cleanup := deleteKvIfLastInstance o s store
      ⟨step1.1, resetState s, cleanup.1,
        step1.2 ++ Ev.healthQuery o.healthFails c :: cleanup.2⟩
  else
    ⟨step1.1, resetState s, store, step1.2⟩

/-- Replays the backend side effects of a trace prefix on the KV store:
only a `kv.delete` that returned `True` mutates the store during
`deregister_service`. -/
def replayKvEffects (p : String) (evs : List Ev) (store : KVStore) : KVStore :=
  match evs with
  | [] => store
  | Ev.kvDeleteEv _ (some true) :: rest => replayKvEffects p rest (store.del p)
  | _ :: rest => replayKvEffects p rest store

/-- Cancellation of the `deregister_service` coroutine at an await point,
as happens when the surrounding `asyncio.wait_for(..., timeout=10.0)` in
`QQBotMicroservice.stop` (service.py lines 256-268) times out and cancels
the task: `asyncio.CancelledError` is a `BaseException` and is not caught
by the `except Exception` at consul.py line 179, there is no `finally`,
and the body assigns no instance attribute before `self._reset_state()` at
line 174 — so the method is abandoned with `self` exactly as it was, while
the backend keeps whatever effects the first `k` issued calls already had. -/
def deregisterCancelled (o : DeregOracle) (s : RegState) (store : KVStore) (k : Nat) :
    RegState × KVStore :=
  (s, replayKvEffects ((s.kv_path).getD "")
        (List.take k (deregister_service o s store).trace) store)

/-! ## Trace predicates (the spec side)

These independent checkers state, over an arbitrary event trace, the
properties the spec claims of the retry loops and of the KV cleanup; the
theorems below relate them to the traces the embedded operations emit. -/

/-- Index of the backend attempt an event starts: a catalog-deregister call,
or the `kv.get` that opens a delete-loop attempt. -/
def attemptIdx : Ev → Option Nat
  | Ev.catalogDeregEv i _ => some i
  | Ev.kvGetEv i _ => some i
  | _ => none

/-- Linear-backoff discipline: a sleep of `n` seconds (`n > 0`) is
immediately followed by the start of attempt `n`, and an attempt with a
positive index starts only right after such a sleep; attempt 0 needs no
sleep. `pending` carries the seconds of a sleep the scan just crossed. -/
def backoffOkAux : Option Nat → List Ev → Bool
  | none, [] => true
  | some _, [] => false
  | none, Ev.sleepEv n :: rest => decide (0 < n) && backoffOkAux (some n) rest
  | some _, Ev.sleepEv _ :: _ => false
  | pending, e :: rest =>
    (match attemptIdx e, pending with
     | some i, some n => i == n
     | some i, none => i == 0
     | none, some _ => false
     | none, none => true) && backoffOkAux none rest

/-- Linear-backoff discipline over a whole trace. -/
def backoffOk (t : List Ev) : Bool := backoffOkAux none t

/-- A successful catalog-deregister attempt or a `kv.delete` that returned
`True` ends its loop: nothing follows it in the loop's trace. -/
def stopsAfterSuccess : List Ev → Bool
  | [] => true
  | Ev.catalogDeregEv _ true :: rest => rest.isEmpty
  | Ev.kvDeleteEv _ (some true) :: rest => rest.isEmpty
  | _ :: rest => stopsAfterSuccess rest

/-- The KV-cleanup discipline of claim C7: a delete may be issued only
immediately after a get of the same attempt that returned the record, a
get that found the record absent is the last event of the cleanup, and a
get that found the record present is always followed by its delete. -/
def cleanupOk : List Ev → Bool
  | [] => true
  | Ev.sleepEv _ :: rest => cleanupOk rest
  | Ev.kvGetEv _ none :: rest => cleanupOk rest
  | Ev.kvGetEv _ (some none) :: rest => rest.isEmpty
  | Ev.kvGetEv i (some (some _)) :: Ev.kvDeleteEv j _ :: rest => (i == j) && cleanupOk rest
  | _ :: _ => false

/-- Recognises a catalog-deregister event. -/
def isCatalogDeregEv : Ev → Bool
  | Ev.catalogDeregEv _ _ => true
  | _ => false

/-- Recognises the `kv.get` opening a delete-loop attempt. -/
def isKvGetEv : Ev → Bool
  | Ev.kvGetEv _ _ => true
  | _ => false

/-- Recognises an issued `kv.delete`. -/
def isKvDeleteEv : Ev → Bool
  | Ev.kvDeleteEv _ _ => true
  | _ => false

/-- Recognises an `agent.service.register` call. -/
def isCatalogRegisterEv : Ev → Bool
  | Ev.catalogRegister _ => true
  | _ => false

/-- Recognises a `kv.put`. -/
def isKvPutEv : Ev → Bool
  | Ev.kvPutEv _ => true
  | _ => false

/-- Recognises a sleep. -/
def isSleepEv : Ev → Bool
  | Ev.sleepEv _ => true
  | _ => false

/-- The local invariant of claim C10: a registered state has its service
id, service name and KV path all set. -/
def stateInv (s : RegState) : Prop :=
  s.registered = true →
    s.service_id.isSome = true ∧ s.service_name.isSome = true ∧ s.kv_path.isSome = true

instance (s : RegState) : Decidable (stateInv s) := by
  unfold stateInv; infer_instance

/-! ## Concrete fixtures -/

/-- A state as left by a successful registration of `svc.a`. -/
def regState : RegState :=
  { kvBasePath := "echo_wing/", service_id := some "svc.a-h1-7-50053-100",
    service_name := some "svc.a", kv_path := some "echo_wing/svc.a", registered := true }

/-- The KV record published for `svc.a`. -/
def svcMeta : KVServiceMeta := ⟨"svc.a", "demo", "schema", 90, 90⟩

/-- A store holding exactly the `svc.a` record. -/
def svcStore : KVStore := [("echo_wing/svc.a", svcMeta)]

/-- Backend behaviour: every call succeeds, except that the passing-health
query raises; one other passing instance of `svc.a` actually exists. -/
def oracleHealthDown : DeregOracle :=
  { catalogDereg := fun _ => true, healthFails := true,
    passing := ["svc.a-h2-9-50054-101"],
    kvGetFails := fun _ => false, kvDeleteRes := fun _ => OpRes.retTrue }

/-- Backend behaviour: everything succeeds and no other instance exists. -/
def oracleAllOk : DeregOracle :=
  { catalogDereg := fun _ => true, healthFails := false, passing := [],
    kvGetFails := fun _ => false, kvDeleteRes := fun _ => OpRes.retTrue }

/-- Register-side backend behaviour: everything succeeds. -/
def regOracleOk : RegOracle :=
  { kvGetFails := false, kvPutRes := OpRes.retTrue, catalogRegisterFails := false,
    hostname := "h1", pid := 7, now := 100, kvNow := 99 }

/-- Register-side backend behaviour: the existence-check get raises, the
put succeeds. -/
def regOracleGetDown : RegOracle :=
  { kvGetFails := true, kvPutRes := OpRes.retTrue, catalogRegisterFails := false,
    hostname := "h1", pid := 7, now := 100, kvNow := 99 }

/-! ## Structural lemmas about the retry loops -/

@[simp] lemma isCatalogDeregEv_mk (i : Nat) (b : Bool) :
    isCatalogDeregEv (Ev.catalogDeregEv i b) = true := rfl

@[simp] lemma isSleepEv_mk (n : Nat) : isSleepEv (Ev.sleepEv n) = true := rfl

@[simp] lemma isKvGetEv_mk (i : Nat) (r : Option (Option KVServiceMeta)) :
    isKvGetEv (Ev.kvGetEv i r) = true := rfl

@[simp] lemma isKvDeleteEv_mk (i : Nat) (r : Option Bool) :
    isKvDeleteEv (Ev.kvDeleteEv i r) = true := rfl

lemma deregRetry_fst_eq (o : DeregOracle) :
    (deregRetry o).1 = (o.catalogDereg 0 || o.catalogDereg 1 || o.catalogDereg 2) := by
  cases h0 : o.catalogDereg 0 <;> cases h1 : o.catalogDereg 1 <;> cases h2 : o.catalogDereg 2 <;>
    simp [deregRetry, deregRetryLoop, h0, h1, h2]

lemma deregRetry_true_iff (o : DeregOracle) :
    (deregRetry o).1 = true ↔ ∃ i, i < 3 ∧ o.catalogDereg i = true := by
  rw [deregRetry_fst_eq]
  constructor
  · intro h
    rcases Bool.or_eq_true_iff.mp h with h' | h2
    · rcases Bool.or_eq_true_iff.mp h' with h0 | h1
      · exact ⟨0, by omega, h0⟩
      · exact ⟨1, by omega, h1⟩
    · exact ⟨2, by omega, h2⟩
  · rintro ⟨i, hi, h⟩
    interval_cases i <;> simp_all

lemma deregRetryLoop_all (o : DeregOracle) :
    ∀ fuel i, (deregRetryLoop o i fuel).2.all (fun e => isCatalogDeregEv e || isSleepEv e) = true := by
  intro fuel
  induction fuel with
  | zero => intro i; simp [deregRetryLoop]
  | succ f ih =>
    intro i
    by_cases hi : 0 < i <;> cases hc : o.catalogDereg i <;>
      simp [deregRetryLoop, hi, hc, ih, -List.all_eq_true]

lemma deregRetryLoop_events (o : DeregOracle) :
    ∀ fuel i, ∀ e ∈ (deregRetryLoop o i fuel).2, (isCatalogDeregEv e || isSleepEv e) = true := by
  intro fuel i
  exact List.all_eq_true.mp (deregRetryLoop_all o fuel i)

lemma deleteKvLoop_all (o : DeregOracle) (p : String) :
    ∀ fuel st i, (deleteKvLoop o p st i fuel).2.all
      (fun e => isKvGetEv e || isKvDeleteEv e || isSleepEv e) = true := by
  intro fuel
  induction fuel with
  | zero => intro st i; simp [deleteKvLoop]
  | succ f ih =>
    intro st i
    by_cases hi : 0 < i <;> cases hg : o.kvGetFails i <;>
        cases hl : st.get p <;> cases hd : o.kvDeleteRes i <;>
      simp [deleteKvLoop, hi, hg, hl, hd, ih, -List.all_eq_true]

lemma deleteKvLoop_events (o : DeregOracle) (p : String) :
    ∀ fuel st i, ∀ e ∈ (deleteKvLoop o p st i fuel).2,
      (isKvGetEv e || isKvDeleteEv e || isSleepEv e) = true := by
  intro fuel st i
  exact List.all_eq_true.mp (deleteKvLoop_all o p fuel st i)

@[simp] lemma isCatalogDeregEv_sleep (n : Nat) : isCatalogDeregEv (Ev.sleepEv n) = false := rfl

@[simp] lemma isCatalogDeregEv_get (i : Nat) (r : Option (Option KVServiceMeta)) :
    isCatalogDeregEv (Ev.kvGetEv i r) = false := rfl

@[simp] lemma isCatalogDeregEv_delete (i : Nat) (r : Option Bool) :
    isCatalogDeregEv (Ev.kvDeleteEv i r) = false := rfl

@[simp] lemma isCatalogDeregEv_health (b : Bool) (c : Nat) :
    isCatalogDeregEv (Ev.healthQuery b c) = false := rfl

@[simp] lemma isKvGetEv_sleep (n : Nat) : isKvGetEv (Ev.sleepEv n) = false := rfl

@[simp] lemma isKvGetEv_delete (i : Nat) (r : Option Bool) :
    isKvGetEv (Ev.kvDeleteEv i r) = false := rfl

@[simp] lemma isKvDeleteEv_sleep (n : Nat) : isKvDeleteEv (Ev.sleepEv n) = false := rfl

@[simp] lemma isKvDeleteEv_get (i : Nat) (r : Option (Option KVServiceMeta)) :
    isKvDeleteEv (Ev.kvGetEv i r) = false := rfl

@[simp] lemma isKvDeleteEv_catalog (i : Nat) (b : Bool) :
    isKvDeleteEv (Ev.catalogDeregEv i b) = false := rfl

@[simp] lemma isKvDeleteEv_health (b : Bool) (c : Nat) :
    isKvDeleteEv (Ev.healthQuery b c) = false := rfl

@[simp] lemma backoffOkAux_nil_none : backoffOkAux none [] = true := rfl

@[simp] lemma backoffOkAux_nil_some (n : Nat) : backoffOkAux (some n) [] = false := rfl

@[simp] lemma backoffOkAux_sleep_none (n : Nat) (rest : List Ev) :
    backoffOkAux none (Ev.sleepEv n :: rest) = (decide (0 < n) && backoffOkAux (some n) rest) := rfl

@[simp] lemma backoffOkAux_sleep_some (m n : Nat) (rest : List Ev) :
    backoffOkAux (some m) (Ev.sleepEv n :: rest) = false := rfl

@[simp] lemma backoffOkAux_catalog_none (i : Nat) (b : Bool) (rest : List Ev) :
    backoffOkAux none (Ev.catalogDeregEv i b :: rest) = ((i == 0) && backoffOkAux none rest) := rfl

@[simp] lemma backoffOkAux_catalog_some (n i : Nat) (b : Bool) (rest : List Ev) :
    backoffOkAux (some n) (Ev.catalogDeregEv i b :: rest) = ((i == n) && backoffOkAux none rest) := rfl

@[simp] lemma backoffOkAux_get_none (i : Nat) (r : Option (Option KVServiceMeta)) (rest : List Ev) :
    backoffOkAux none (Ev.kvGetEv i r :: rest) = ((i == 0) && backoffOkAux none rest) := rfl

@[simp] lemma backoffOkAux_get_some (n i : Nat) (r : Option (Option KVServiceMeta)) (rest : List Ev) :
    backoffOkAux (some n) (Ev.kvGetEv i r :: rest) = ((i == n) && backoffOkAux none rest) := rfl

@[simp] lemma backoffOkAux_delete_none (i : Nat) (r : Option Bool) (rest : List Ev) :
    backoffOkAux none (Ev.kvDeleteEv i r :: rest) = backoffOkAux none rest := rfl

@[simp] lemma backoffOkAux_delete_some (n i : Nat) (r : Option Bool) (rest : List Ev) :
    backoffOkAux (some n) (Ev.kvDeleteEv i r :: rest) = false := rfl

@[simp] lemma stopsAfterSuccess_nil : stopsAfterSuccess [] = true := rfl

@[simp] lemma stopsAfterSuccess_sleep (n : Nat) (rest : List Ev) :
    stopsAfterSuccess (Ev.sleepEv n :: rest) = stopsAfterSuccess rest := rfl

@[simp] lemma stopsAfterSuccess_get (i : Nat) (r : Option (Option KVServiceMeta)) (rest : List Ev) :
    stopsAfterSuccess (Ev.kvGetEv i r :: rest) = stopsAfterSuccess rest := rfl

@[simp] lemma stopsAfterSuccess_health (b : Bool) (c : Nat) (rest : List Ev) :
    stopsAfterSuccess (Ev.healthQuery b c :: rest) = stopsAfterSuccess rest := rfl

@[simp] lemma stopsAfterSuccess_catalog_true (i : Nat) (rest : List Ev) :
    stopsAfterSuccess (Ev.catalogDeregEv i true :: rest) = rest.isEmpty := rfl

@[simp] lemma stopsAfterSuccess_catalog_false (i : Nat) (rest : List Ev) :
    stopsAfterSuccess (Ev.catalogDeregEv i false :: rest) = stopsAfterSuccess rest := rfl

@[simp] lemma stopsAfterSuccess_delete_true (i : Nat) (rest : List Ev) :
    stopsAfterSuccess (Ev.kvDeleteEv i (some true) :: rest) = rest.isEmpty := rfl

@[simp] lemma stopsAfterSuccess_delete_false (i : Nat) (rest : List Ev) :
    stopsAfterSuccess (Ev.kvDeleteEv i (some false) :: rest) = stopsAfterSuccess rest := rfl

@[simp] lemma stopsAfterSuccess_delete_raised (i : Nat) (rest : List Ev) :
    stopsAfterSuccess (Ev.kvDeleteEv i none :: rest) = stopsAfterSuccess rest := rfl

@[simp] lemma cleanupOk_nil : cleanupOk [] = true := rfl

@[simp] lemma cleanupOk_sleep (n : Nat) (rest : List Ev) :
    cleanupOk (Ev.sleepEv n :: rest) = cleanupOk rest := rfl

@[simp] lemma cleanupOk_get_raised (i : Nat) (rest : List Ev) :
    cleanupOk (Ev.kvGetEv i none :: rest) = cleanupOk rest := rfl

@[simp] lemma cleanupOk_get_absent (i : Nat) (rest : List Ev) :
    cleanupOk (Ev.kvGetEv i (some none) :: rest) = rest.isEmpty := rfl

@[simp] lemma cleanupOk_get_present (i : Nat) (v : KVServiceMeta) (j : Nat) (r : Option Bool)
    (rest : List Ev) :
    cleanupOk (Ev.kvGetEv i (some (some v)) :: Ev.kvDeleteEv j r :: rest) =
      ((i == j) && cleanupOk rest) := rfl

lemma deregRetryLoop_backoff (o : DeregOracle) :
    ∀ fuel i, backoffOkAux none (deregRetryLoop o i fuel).2 = true := by
  intro fuel
  induction fuel with
  | zero => intro i; simp [deregRetryLoop]
  | succ f ih =>
    intro i
    by_cases hi : 0 < i <;> cases hc : o.catalogDereg i <;>
      simp [deregRetryLoop, hi, hc, ih] <;> omega

lemma deleteKvLoop_backoff (o : DeregOracle) (p : String) :
    ∀ fuel st i, backoffOkAux none (deleteKvLoop o p st i fuel).2 = true := by
  intro fuel
  induction fuel with
  | zero => intro st i; simp [deleteKvLoop]
  | succ f ih =>
    intro st i
    by_cases hi : 0 < i <;> cases hg : o.kvGetFails i <;>
        cases hl : st.get p <;> cases hd : o.kvDeleteRes i <;>
      simp [deleteKvLoop, hi, hg, hl, hd, ih] <;> omega

lemma deregRetryLoop_stops (o : DeregOracle) :
    ∀ fuel i, stopsAfterSuccess (deregRetryLoop o i fuel).2 = true := by
  intro fuel
  induction fuel with
  | zero => intro i; simp [deregRetryLoop]
  | succ f ih =>
    intro i
    by_cases hi : 0 < i <;> cases hc : o.catalogDereg i <;>
      simp [deregRetryLoop, hi, hc, ih]

lemma deleteKvLoop_stops (o : DeregOracle) (p : String) :
    ∀ fuel st i, stopsAfterSuccess (deleteKvLoop o p st i fuel).2 = true := by
  intro fuel
  induction fuel with
  | zero => intro st i; simp [deleteKvLoop]
  | succ f ih =>
    intro st i
    by_cases hi : 0 < i <;> cases hg : o.kvGetFails i <;>
        cases hl : st.get p <;> cases hd : o.kvDeleteRes i <;>
      simp [deleteKvLoop, hi, hg, hl, hd, ih]

lemma deleteKvLoop_cleanupOk (o : DeregOracle) (p : String) :
    ∀ fuel st i, cleanupOk (deleteKvLoop o p st i fuel).2 = true := by
  intro fuel
  induction fuel with
  | zero => intro st i; simp [deleteKvLoop]
  | succ f ih =>
    intro st i
    by_cases hi : 0 < i <;> cases hg : o.kvGetFails i <;>
        cases hl : st.get p <;> cases hd : o.kvDeleteRes i <;>
      simp [deleteKvLoop, hi, hg, hl, hd, ih]

lemma deregRetryLoop_count (o : DeregOracle) :
    ∀ fuel i, (deregRetryLoop o i fuel).2.countP isCatalogDeregEv ≤ fuel := by
  intro fuel
  induction fuel with
  | zero => intro i; simp [deregRetryLoop]
  | succ f ih =>
    intro i
    have h1 := ih (i + 1)
    by_cases hi : 0 < i <;> cases hc : o.catalogDereg i <;>
      simp [deregRetryLoop, hi, hc, List.countP_cons, List.countP_append] <;> omega

lemma deleteKvLoop_countGet (o : DeregOracle) (p : String) :
    ∀ fuel st i, (deleteKvLoop o p st i fuel).2.countP isKvGetEv ≤ fuel := by
  intro fuel
  induction fuel with
  | zero => intro st i; simp [deleteKvLoop]
  | succ f ih =>
    intro st i
    have h1 := ih st (i + 1)
    by_cases hi : 0 < i <;> cases hg : o.kvGetFails i <;>
        cases hl : st.get p <;> cases hd : o.kvDeleteRes i <;>
      simp [deleteKvLoop, hi, hg, hl, hd, List.countP_cons, List.countP_append] <;> omega

lemma deleteKvLoop_countDelete (o : DeregOracle) (p : String) :
    ∀ fuel st i, (deleteKvLoop o p st i fuel).2.countP isKvDeleteEv ≤ fuel := by
  intro fuel
  induction fuel with
  | zero => intro st i; simp [deleteKvLoop]
  | succ f ih =>
    intro st i
    have h1 := ih st (i + 1)
    by_cases hi : 0 < i <;> cases hg : o.kvGetFails i <;>
        cases hl : st.get p <;> cases hd : o.kvDeleteRes i <;>
      simp [deleteKvLoop, hi, hg, hl, hd, List.countP_cons, List.countP_append] <;> omega

@[simp] lemma isCatalogRegisterEv_mk (sid : String) :
    isCatalogRegisterEv (Ev.catalogRegister sid) = true := rfl

@[simp] lemma isCatalogRegisterEv_get (i : Nat) (r : Option (Option KVServiceMeta)) :
    isCatalogRegisterEv (Ev.kvGetEv i r) = false := rfl

@[simp] lemma isCatalogRegisterEv_put (r : Option Bool) :
    isCatalogRegisterEv (Ev.kvPutEv r) = false := rfl

@[simp] lemma isKvPutEv_mk (r : Option Bool) : isKvPutEv (Ev.kvPutEv r) = true := rfl

@[simp] lemma isKvPutEv_get (i : Nat) (r : Option (Option KVServiceMeta)) :
    isKvPutEv (Ev.kvGetEv i r) = false := rfl

@[simp] lemma isKvPutEv_reg (sid : String) : isKvPutEv (Ev.catalogRegister sid) = false := rfl

lemma not_delete_of_retry_event (e : Ev) (he : (isCatalogDeregEv e || isSleepEv e) = true) :
    isKvDeleteEv e = false := by
  cases e <;> simp_all [isCatalogDeregEv, isSleepEv, isKvDeleteEv]

lemma not_catalog_of_cleanup_event (e : Ev)
    (he : (isKvGetEv e || isKvDeleteEv e || isSleepEv e) = true) :
    isCatalogDeregEv e = false := by
  cases e <;> simp_all [isKvGetEv, isKvDeleteEv, isSleepEv, isCatalogDeregEv]

lemma deleteKvIfLastInstance_events (o : DeregOracle) (s : RegState) (store : KVStore) :
    ∀ e ∈ (deleteKvIfLastInstance o s store).2,
      (isKvGetEv e || isKvDeleteEv e || isSleepEv e) = true := by
  unfold deleteKvIfLastInstance
  cases hp : s.kv_path with
  | none => simp
  | some p =>
    by_cases hq : (p == "") = true
    · simp [hq]
    · simp only [hq, if_neg, Bool.false_eq_true, if_false]
      intro e he
      simpa using deleteKvLoop_events o p 3 store 0 e he

lemma deregister_state_eq (o : DeregOracle) (s : RegState) (store : KVStore) :
    (deregister_service o s store).state = resetState s := by
  by_cases hn : truthy s.service_name <;>
    by_cases hc : 0 < getActiveInstanceCount o s.service_id <;>
    simp [deregister_service, hn, hc]

/-- **C3.** `deregister()` returns exactly the catalog-deregistration
outcome: `True` when this process was not registered (the `registered and
service_id` guard fails), otherwise the result of the bounded retry — which
is `True` iff one of its at most 3 attempts succeeds. KV-cleanup behaviour
(the `kvGetFails`/`kvDeleteRes` components of the oracle) does not appear
on the right-hand side, so its failure never changes the returned value. -/
theorem deregister_returns_catalog_outcome (o : DeregOracle) (s : RegState) (store : KVStore) :
    (deregister_service o s store).ok =
      (if s.registered && truthy s.service_id then (deregRetry o).1 else true) ∧
    ((deregRetry o).1 = true ↔ ∃ i, i < 3 ∧ o.catalogDereg i = true) := by
  refine ⟨?_, deregRetry_true_iff o⟩
  by_cases hn : truthy s.service_name <;>
    by_cases hc : 0 < getActiveInstanceCount o s.service_id <;>
    by_cases hr : (s.registered && truthy s.service_id) = true <;>
    simp [deregister_service, hn, hc, hr]

/-- **C4 (amended).** Every `deregister_service` call that runs to
completion resets the registry state: `registered` is `False` and
`service_id`, `service_name`, `kv_path` are cleared, whatever the backend
did. (The claim's further assertion about a timed-out, cancelled call is
refuted by `deregister_cancelled_keeps_registered`.) -/
theorem deregister_resets_state (o : DeregOracle) (s : RegState) (store : KVStore) :
    (deregister_service o s store).state.registered = false ∧
    (deregister_service o s store).state.service_id = none ∧
    (deregister_service o s store).state.service_name = none ∧
    (deregister_service o s store).state.kv_path = none := by
  rw [deregister_state_eq]
  simp [resetState]

/-- **C4 (counterexample).** When the surrounding shutdown timeout cancels
the in-flight `deregister_service` coroutine (here: right after its first
backend call), the state is *not* reset: `registered` is still `true`,
contradicting the claim that the state is reset even when the timeout
fires and abandons the backend call. -/
theorem deregister_cancelled_keeps_registered :
    (deregisterCancelled oracleAllOk regState svcStore 1).1.registered = true ∧
    (deregisterCancelled oracleAllOk regState svcStore 1).1 ≠ resetState regState := by
  decide

/-- **C1.** The code contradicts this claim: when the passing-health query
raises, `_get_active_instance_count` catches the exception and returns
**0** (consul.py line 252), so the registry sees "no others", proceeds to
KV deletion, and the record is gone after `deregister()` — here shown on a
run where the query fails while another passing instance actually exists
and every other backend call succeeds. -/
theorem health_failure_reports_zero_and_deletes_kv :
    oracleHealthDown.healthFails = true ∧
    getActiveInstanceCount oracleHealthDown regState.service_id = 0 ∧
    (deregister_service oracleHealthDown regState svcStore).store.get "echo_wing/svc.a" = none ∧
    (∃ e ∈ (deregister_service oracleHealthDown regState svcStore).trace,
      isKvDeleteEv e = true) := by
  decide

/-- **C2 (counterexample).** A concrete run in which the KV record is
deleted while another passing instance of the same service (with a
different service id) exists in the catalog: the health query raises, the
count is reported as 0, and the delete goes through. -/
theorem kv_deleted_while_another_instance_passing :
    ("svc.a-h2-9-50054-101" ∈ oracleHealthDown.passing ∧
      some "svc.a-h2-9-50054-101" ≠ regState.service_id) ∧
    svcStore.get "echo_wing/svc.a" = some svcMeta ∧
    (deregister_service oracleHealthDown regState svcStore).store.get "echo_wing/svc.a" = none := by
  decide

/-- **C2 (amended).** Ordering of `deregister_service`: whenever a
`kv.delete` is issued, the trace splits as `pre ++ healthQuery _ 0 :: post`
where `pre` contains no delete and contains every catalog-deregistration
attempt of the run — i.e. every KV delete happens after the whole catalog
step and after an instance-count check that *reported* zero others. (The
stronger claim — that no other passing instance then *exists* — fails when
the health query raises; see `kv_deleted_while_another_instance_passing`.) -/
theorem deregister_delete_ordering (o : DeregOracle) (s : RegState) (store : KVStore)
    (h : ∃ e ∈ (deregister_service o s store).trace, isKvDeleteEv e = true) :
    ∃ pre post failed,
      (deregister_service o s store).trace = pre ++ Ev.healthQuery failed 0 :: post ∧
      (∀ e ∈ pre, isKvDeleteEv e = false) ∧
      (∀ e ∈ (deregister_service o s store).trace,
        isCatalogDeregEv e = true → e ∈ pre) := by
  have hstep : ∀ e ∈ (if s.registered && truthy s.service_id then
      deregRetry o else (true, [])).2, (isCatalogDeregEv e || isSleepEv e) = true := by
    by_cases hr : (s.registered && truthy s.service_id) = true
    · rw [if_pos hr]; exact deregRetryLoop_events o 3 0
    · rw [if_neg hr]; intro e he; simp at he
  by_cases hn : truthy s.service_name
  · by_cases hc : 0 < getActiveInstanceCount o s.service_id
    · exfalso
      obtain ⟨e, he, hdel⟩ := h
      simp only [deregister_service, if_pos hn, if_pos hc] at he
      rcases List.mem_append.mp he with h1 | h2
      · rw [not_delete_of_retry_event e (hstep e h1)] at hdel; exact Bool.false_ne_true hdel
      · simp only [List.mem_cons, List.not_mem_nil, or_false] at h2
        rcases h2 with h2 | h2 <;> (subst h2; simp [isKvDeleteEv] at hdel)
    · have hc0 : getActiveInstanceCount o s.service_id = 0 := by omega
      refine ⟨(if s.registered && truthy s.service_id then deregRetry o else (true, [])).2,
        (deleteKvIfLastInstance o s store).2, o.healthFails, ?_, ?_, ?_⟩
      · simp [deregister_service, hn, hc, hc0]
      · intro e he; exact not_delete_of_retry_event e (hstep e he)
      · intro e he hcat
        simp only [deregister_service, if_pos hn, if_neg hc] at he
        rcases List.mem_append.mp he with h1 | h2
        · exact h1
        · exfalso
          rcases List.mem_cons.mp h2 with h2 | h2
          · subst h2; simp [isCatalogDeregEv] at hcat
          · rw [not_catalog_of_cleanup_event e
              (deleteKvIfLastInstance_events o s store e h2)] at hcat
            exact Bool.false_ne_true hcat
  · exfalso
    obtain ⟨e, he, hdel⟩ := h
    simp only [deregister_service, if_neg hn] at he
    rw [not_delete_of_retry_event e (hstep e he)] at hdel
    exact Bool.false_ne_true hdel

/-- Witness for `deregister_delete_ordering`: a run (all backend calls
succeed, no other instance) in which the delete is actually issued. -/
theorem deregister_delete_ordering_witness :
    ∃ pre post failed,
      (deregister_service oracleAllOk regState svcStore).trace =
        pre ++ Ev.healthQuery failed 0 :: post ∧
      (∀ e ∈ pre, isKvDeleteEv e = false) ∧
      (∀ e ∈ (deregister_service oracleAllOk regState svcStore).trace,
        isCatalogDeregEv e = true → e ∈ pre) :=
  deregister_delete_ordering oracleAllOk regState svcStore (by decide)

/-- **C7.** Within the KV-cleanup loop, a delete is issued only immediately
after a get (of the same attempt) that returned the record, and a get that
reports the record absent ends the cleanup with no further event — in
particular, if the record is already gone, the loop never issues a delete
and leaves the store untouched. -/
theorem kv_cleanup_get_guards_delete (o : DeregOracle) (p : String) (store : KVStore) :
    cleanupOk (deleteKvLoop o p store 0 3).2 = true ∧
    (store.get p = none →
      (deleteKvLoop o p store 0 3).1 = store ∧
      ∀ e ∈ (deleteKvLoop o p store 0 3).2, isKvDeleteEv e = false) := by
  refine ⟨deleteKvLoop_cleanupOk o p 3 store 0, ?_⟩
  intro habs
  cases hg0 : o.kvGetFails 0 <;> cases hg1 : o.kvGetFails 1 <;> cases hg2 : o.kvGetFails 2 <;>
    simp [deleteKvLoop, habs, hg0, hg1, hg2]

/-- **C8.** Both retry sites use the same bounded policy. Catalog
deregistration: at most 3 attempts, success exactly when one of attempts
0, 1, 2 succeeds, linear backoff (`i` seconds slept immediately before
attempt `i`, none before attempt 0), stop at the first success. KV
deletion: at most 3 attempts (gets and deletes each), the same backoff
discipline, stop at the first delete that returns `True`. -/
theorem retry_policy_bounded (o : DeregOracle) (p : String) (store : KVStore) :
    ((deregRetry o).1 = true ↔ ∃ i, i < 3 ∧ o.catalogDereg i = true) ∧
    (deregRetry o).2.countP isCatalogDeregEv ≤ 3 ∧
    backoffOk (deregRetry o).2 = true ∧
    stopsAfterSuccess (deregRetry o).2 = true ∧
    (deleteKvLoop o p store 0 3).2.countP isKvGetEv ≤ 3 ∧
    (deleteKvLoop o p store 0 3).2.countP isKvDeleteEv ≤ 3 ∧
    backoffOk (deleteKvLoop o p store 0 3).2 = true ∧
    stopsAfterSuccess (deleteKvLoop o p store 0 3).2 = true :=
  ⟨deregRetry_true_iff o, deregRetryLoop_count o 3 0, deregRetryLoop_backoff o 3 0,
    deregRetryLoop_stops o 3 0, deleteKvLoop_countGet o p 3 store 0,
    deleteKvLoop_countDelete o p 3 store 0, deleteKvLoop_backoff o p 3 store 0,
    deleteKvLoop_stops o p 3 store 0⟩

lemma register_noop_of_registered (s : RegState) (store : KVStore) (o : RegOracle)
    (name addr desc sdata : String) (port : Nat) (h : s.registered = true) :
    register_service s store o name addr port desc sdata = ⟨true, s, store, []⟩ := by
  simp [register_service, h]

lemma register_success_shape (s : RegState) (store : KVStore) (o : RegOracle)
    (name addr desc sdata : String) (port : Nat)
    (h : s.registered = false)
    (hok : (register_service s store o name addr port desc sdata).ok = true) :
    (register_service s store o name addr port desc sdata).state.registered = true ∧
    (register_service s store o name addr port desc sdata).trace.countP isCatalogRegisterEv = 1 := by
  by_cases hcat : o.catalogRegisterFails <;>
    by_cases hget : o.kvGetFails <;>
    cases hput : o.kvPutRes <;>
    cases hl : store.get (s.kvBasePath ++ name) <;>
    simp [register_service, h, hcat, hget, hput, hl,
      List.countP_cons, List.countP_append] at hok ⊢

lemma rstripSlashes_of_not_slash (s : String) (h : endsWithSlash s = false) :
    rstripSlashes s = s := by
  cases s with
  | mk d =>
    unfold rstripSlashes endsWithSlash at *
    cases hr : d.reverse with
    | nil =>
      have hd : d = [] := by simpa using congrArg List.reverse hr
      subst hd
      rfl
    | cons c t =>
      simp only [hr] at h
      have hd : d = (c :: t).reverse := by rw [← hr, List.reverse_reverse]
      rw [List.dropWhile_cons, if_neg (by simp_all), ← hd]

/-- **C5.** With the registry already registered, `register()` is an exact
no-op that returns `True` (no KV or catalog call: empty trace, unchanged
state and store); consequently a successful registration followed by two
further `register()` calls returns `True` on both and the combined trace
holds exactly one catalog-registration call. -/
theorem register_idempotent (s : RegState) (store : KVStore) (o o₂ o₃ : RegOracle)
    (name addr desc sdata : String) (port : Nat)
    (h : s.registered = false)
    (hok : (register_service s store o name addr port desc sdata).ok = true) :
    register_service (register_service s store o name addr port desc sdata).state
        (register_service s store o name addr port desc sdata).store o₂ name addr port desc sdata =
      ⟨true, (register_service s store o name addr port desc sdata).state,
        (register_service s store o name addr port desc sdata).store, []⟩ ∧
    register_service (register_service s store o name addr port desc sdata).state
        (register_service s store o name addr port desc sdata).store o₃ name addr port desc sdata =
      ⟨true, (register_service s store o name addr port desc sdata).state,
        (register_service s store o name addr port desc sdata).store, []⟩ ∧
    ((register_service s store o name addr port desc sdata).trace ++
      (register_service (register_service s store o name addr port desc sdata).state
        (register_service s store o name addr port desc sdata).store o₂
        name addr port desc sdata).trace).countP isCatalogRegisterEv = 1 := by
  obtain ⟨hreg, hcount⟩ := register_success_shape s store o name addr desc sdata port h hok
  have h2 := register_noop_of_registered
    (register_service s store o name addr port desc sdata).state
    (register_service s store o name addr port desc sdata).store o₂ name addr desc sdata port hreg
  have h3 := register_noop_of_registered
    (register_service s store o name addr port desc sdata).state
    (register_service s store o name addr port desc sdata).store o₃ name addr desc sdata port hreg
  refine ⟨h2, h3, ?_⟩
  rw [h2]
  simpa using hcount

/-- Witness for `register_idempotent` at a concrete successful
registration. -/
theorem register_idempotent_witness :
    register_service (register_service (initClient "echo_wing/") [] regOracleOk
          "svc.a" "10.0.0.1" 9000 "" "").state
        (register_service (initClient "echo_wing/") [] regOracleOk
          "svc.a" "10.0.0.1" 9000 "" "").store regOracleOk "svc.a" "10.0.0.1" 9000 "" "" =
      ⟨true, (register_service (initClient "echo_wing/") [] regOracleOk
          "svc.a" "10.0.0.1" 9000 "" "").state,
        (register_service (initClient "echo_wing/") [] regOracleOk
          "svc.a" "10.0.0.1" 9000 "" "").store, []⟩ ∧
    register_service (register_service (initClient "echo_wing/") [] regOracleOk
          "svc.a" "10.0.0.1" 9000 "" "").state
        (register_service (initClient "echo_wing/") [] regOracleOk
          "svc.a" "10.0.0.1" 9000 "" "").store regOracleOk "svc.a" "10.0.0.1" 9000 "" "" =
      ⟨true, (register_service (initClient "echo_wing/") [] regOracleOk
          "svc.a" "10.0.0.1" 9000 "" "").state,
        (register_service (initClient "echo_wing/") [] regOracleOk
          "svc.a" "10.0.0.1" 9000 "" "").store, []⟩ ∧
    ((register_service (initClient "echo_wing/") [] regOracleOk
        "svc.a" "10.0.0.1" 9000 "" "").trace ++
      (register_service (register_service (initClient "echo_wing/") [] regOracleOk
          "svc.a" "10.0.0.1" 9000 "" "").state
        (register_service (initClient "echo_wing/") [] regOracleOk
          "svc.a" "10.0.0.1" 9000 "" "").store regOracleOk
        "svc.a" "10.0.0.1" 9000 "" "").trace).countP isCatalogRegisterEv = 1 :=
  register_idempotent (initClient "echo_wing/") [] regOracleOk regOracleOk regOracleOk
    "svc.a" "10.0.0.1" "" "" 9000 (by decide) (by decide)

/-- **C6 (amended).** When the existence-check get *succeeds* and reports
the record present, `register_service` issues no put and returns the store
unchanged — the existing record's content is untouched. (As stated, the
claim also covers a *failing* get, which the code maps to "absent": see
`register_overwrites_record_when_get_raises`.) -/
theorem register_preserves_existing_record (s : RegState) (store : KVStore) (o : RegOracle)
    (name addr desc sdata : String) (port : Nat)
    (hget : o.kvGetFails = false)
    (hpresent : (store.get (s.kvBasePath ++ name)).isSome = true) :
    (register_service s store o name addr port desc sdata).store = store ∧
    ∀ e ∈ (register_service s store o name addr port desc sdata).trace,
      isKvPutEv e = false := by
  obtain ⟨v, hv⟩ := Option.isSome_iff_exists.mp hpresent
  by_cases hreg : s.registered <;> by_cases hcat : o.catalogRegisterFails <;>
    simp [register_service, hreg, hcat, hget, hv]

/-- Witness for `register_preserves_existing_record`: registering over an
existing record with a healthy backend leaves the store unchanged. -/
theorem register_preserves_existing_record_witness :
    (register_service (initClient "echo_wing/") svcStore regOracleOk
      "svc.a" "10.0.0.5" 50053 "" "").store = svcStore ∧
    ∀ e ∈ (register_service (initClient "echo_wing/") svcStore regOracleOk
      "svc.a" "10.0.0.5" 50053 "" "").trace, isKvPutEv e = false :=
  register_preserves_existing_record (initClient "echo_wing/") svcStore regOracleOk
    "svc.a" "10.0.0.5" "" "" 50053 (by decide) (by decide)

/-- **C6 (counterexample).** When the existence-check get raises,
`_check_kv_exists` reports "absent" (consul.py line 311), so
`register_service` puts a fresh record over the one that already exists at
`kv_path`, changing its content — the claim's "never overwrites an existing
KV record" fails on this input. -/
theorem register_overwrites_record_when_get_raises :
    regOracleGetDown.kvGetFails = true ∧
    svcStore.get "echo_wing/svc.a" = some svcMeta ∧
    (register_service (initClient "echo_wing/") svcStore regOracleGetDown
      "svc.a" "10.0.0.5" 50053 "new" "nd").store.get "echo_wing/svc.a" ≠ some svcMeta := by
  decide

/-- **C9.** Identifier formulas of `register()`: with a base path that does
not end in `/`, `kv_path = base_path + "/" + service_name`; the service id
is `name-host-pid-port-timestamp`; and the spec's concrete scenario holds:
base `"echo_wing/"` with name `"echo.bot"` yields `"echo_wing/echo.bot"`
(the constructor first strips trailing slashes). -/
theorem register_identifier_formulas (base name addr desc sdata : String) (port : Nat)
    (store store2 : KVStore) (o o₂ : RegOracle)
    (h : endsWithSlash base = false) :
    (register_service (initClient base) store o name addr port desc sdata).state.kv_path =
      some (base ++ "/" ++ name) ∧
    (register_service (initClient base) store o name addr port desc sdata).state.service_id =
      some (name ++ "-" ++ o.hostname ++ "-" ++ toString o.pid ++ "-" ++ toString port ++ "-" ++
        toString o.now) ∧
    (register_service (initClient "echo_wing/") store2 o₂ "echo.bot" addr 50053 desc
      sdata).state.kv_path = some "echo_wing/echo.bot" := by
  have hb : (initClient base).kvBasePath = base ++ "/" := by
    simp [initClient, rstripSlashes_of_not_slash base h]
  refine ⟨?_, ?_, ?_⟩
  · by_cases hcat : o.catalogRegisterFails <;>
      simp [register_service, initClient, hcat, rstripSlashes_of_not_slash base h, serviceIdOf]
  · by_cases hcat : o.catalogRegisterFails <;>
      simp [register_service, initClient, hcat, serviceIdOf]
  · by_cases hcat : o₂.catalogRegisterFails <;>
      simp [register_service, initClient, hcat] <;> decide

/-- Witness for `register_identifier_formulas` at `base = "echo_wing"`. -/
theorem register_identifier_formulas_witness :
    (register_service (initClient "echo_wing") [] regOracleOk
      "echo.bot" "10.0.0.5" 50053 "" "").state.kv_path =
      some ("echo_wing" ++ "/" ++ "echo.bot") :=
  (register_identifier_formulas "echo_wing" "echo.bot" "10.0.0.5" "" "" 50053 [] []
    regOracleOk regOracleOk (by decide)).1

/-- **C10.** The local-state invariant "`registered` implies `service_id`,
`service_name` and `kv_path` are all set" holds of a fresh client and is
preserved by `register_service` (the flag is set only in the branch where
all three fields have been assigned) and by `deregister_service` (the
reset clears the flag together with the fields); moreover, with
`service_id` unset the catalog-deregistration step never runs. -/
theorem registry_state_invariant (base : String) :
    stateInv (initClient base) ∧
    (∀ s store o name addr desc sdata port, stateInv s →
      stateInv (register_service s store o name addr port desc sdata).state) ∧
    (∀ o s store, stateInv (deregister_service o s store).state) ∧
    (∀ o s store, s.service_id = none →
      ∀ e ∈ (deregister_service o s store).trace, isCatalogDeregEv e = false) := by
  refine ⟨?_, ?_, ?_, ?_⟩
  · intro hreg; simp [initClient] at hreg
  · intro s store o name addr desc sdata port hs
    by_cases hreg : s.registered
    · have := register_noop_of_registered s store o name addr desc sdata port hreg
      rw [this]
      exact hs
    · by_cases hcat : o.catalogRegisterFails <;>
        simp [register_service, hreg, hcat, stateInv]
  · intro o s store
    rw [deregister_state_eq]
    simp [stateInv, resetState]
  · intro o s store hid e he
    have hguard : (s.registered && truthy s.service_id) = false := by
      simp [hid, truthy]
    by_cases hn : truthy s.service_name
    · by_cases hc : 0 < getActiveInstanceCount o s.service_id
      · simp only [deregister_service, if_pos hn, if_pos hc, hguard, Bool.false_eq_true,
          if_false] at he
        simp only [List.nil_append, List.mem_cons, List.not_mem_nil, or_false] at he
        rcases he with he | he <;> subst he <;> rfl
      · simp only [deregister_service, if_pos hn, if_neg hc, hguard, Bool.false_eq_true,
          if_false] at he
        simp only [List.nil_append, List.mem_cons] at he
        rcases he with he | he
        · subst he; rfl
        · exact not_catalog_of_cleanup_event e (deleteKvIfLastInstance_events o s store e he)
    · simp only [deregister_service, if_neg hn, hguard, Bool.false_eq_true, if_false] at he
      simp at he

end ConsulSpec
